import Mathlib

/-
Verification of the asl-ml-immersion notebooks.

This file gives a shallow embedding of the executable content of three
notebooks:

 * the time-series stock-direction lab (helper functions `clean_data`,
   `_scale_features`, `create_features`, `_create_split`, `create_query`,
   the inline `bq_query` string and the train/valid/test CSV export loop);
 * the Vertex AI CI/CD lab (the `cloudbuild_vertex.yaml` template and the
   `gcloud builds submit` invocation);
 * the DCGAN tutorial (`train_step` and `train`, modelled as the trace of
   framework effects each invocation performs).

Pandas dataframes are modelled as lists of typed rows or as lists of named
columns.  Floating point cells are modelled over the rationals plus
explicit non-finite markers (`nan`, `inf`, `ninf`); no theorem below
depends on the numeric value a float operation produces, only on which
cells exist and whether they are finite.
-/

deriving instance DecidableEq for Except

/-- A dataframe cell: a finite numeric value, or one of the non-finite
floating point markers that the cleaning documentation talks about. -/
inductive Cell where
  | q (x : ℚ)
  | nan
  | inf
  | ninf
deriving DecidableEq, Repr

/-- True exactly on finite numeric cells. -/
def Cell.isFinite : Cell → Bool
  | .q _ => true
  | _ => false

/-- A row of the raw dataframe returned by the BigQuery queries of the
stock lab: columns symbol, Date, direction, close_values_prior_260. -/
structure RawRow where
  symbol : String
  date : String
  direction : String
  close_values : List Cell
deriving DecidableEq, Repr

/-- A row of the dataframe produced by `clean_data`: the Date column has
been reformatted to a string (None models the NaN that
pandas `strftime` yields on an unparseable, coerced date) and the
direction_numeric column has been appended. -/
structure CleanRow where
  symbol : String
  date_str : Option String
  direction : String
  close_values : List Cell
  direction_numeric : Nat
deriving DecidableEq, Repr

/-- Left-pad a numeral to two digits, as strftime does for month and day. -/
def pad2 (n : Nat) : String :=
  if n < 10 then "0" ++ toString n else toString n

/-- Split a character list on a separator, like str.split on one
character. -/
def split_chars (sep : Char) : List Char → List (List Char)
  | [] => [[]]
  | c :: t =>
    let rest := split_chars sep t
    if c = sep then [] :: rest
    else
      match rest with
      | [] => [[c]]
      | grp :: groups => (c :: grp) :: groups

/-- Read a non-empty all-digit character group as a number. -/
def parse_nat? (cs : List Char) : Option Nat :=
  if cs.isEmpty || !(cs.all Char.isDigit) then none
  else some (cs.foldl (fun acc c => acc * 10 + (c.toNat - 48)) 0)

/-- Parse an ISO "YYYY-MM-DD" date string; models
pd.to_datetime on the date strings this dataset carries, with None for the
coerced NaT on malformed input. -/
def parse_date (s : String) : Option (Nat × Nat × Nat) :=
  match split_chars (Char.ofNat 45) s.data with
  | [y, m, d] =>
    match parse_nat? y, parse_nat? m, parse_nat? d with
    | some yn, some mn, some dn =>
      if y.length == 4 && m.length == 2 && d.length == 2
          && 1 ≤ mn && mn ≤ 12 && 1 ≤ dn && dn ≤ 31 then
        some (yn, mn, dn)
      else none
    | _, _, _ => none
  | _ => none

/-- Format a parsed date back with the "%Y-%m-%d" pattern used by
the notebook's strftime call. -/
def format_ymd : Nat × Nat × Nat → String
  | (y, m, d) => toString y ++ "-" ++ pad2 m ++ "-" ++ pad2 d

/-- Numeric code of a date string, for comparing the split boundaries;
unparseable strings map to 0. -/
def date_code (s : String) : Nat :=
  match parse_date s with
  | some (y, m, d) => y * 10000 + m * 100 + d
  | none => 0

/-- The dictionary lookup applied to the direction column by `clean_data`:
the Python dict maps DOWN to 0, STAY to 1 and UP to 2, and any
other key raises KeyError, modelled as `none`. -/
def dir_map (x : String) : Option Nat :=
  if x = "DOWN" then some 0
  else if x = "STAY" then some 1
  else if x = "UP" then some 2
  else none

/-- The per-row effect of `clean_data` once the direction lookup has
succeeded: Date reparsed and reformatted, direction_numeric appended, all
other columns (including close_values_prior_260) copied through untouched. -/
def clean_row (r : RawRow) (n : Nat) : CleanRow :=
  { symbol := r.symbol
    date_str := (parse_date r.date).map format_ymd
    direction := r.direction
    close_values := r.close_values
    direction_numeric := n }

/-- Row-by-row body of `clean_data`; the first direction value outside the
dictionary raises KeyError, exactly as the pandas apply does. -/
def clean_rows : List RawRow → Except String (List CleanRow)
  | [] => Except.ok []
  | r :: rs =>
    match dir_map r.direction with
    | none => Except.error "KeyError"
    | some n =>
      match clean_rows rs with
      | Except.error e => Except.error e
      | Except.ok rest => Except.ok (clean_row r n :: rest)

/-- The notebook's `clean_data`: copies the input dataframe, reformats the
Date column through to_datetime / strftime, and appends the
direction_numeric column via the dictionary lookup.  The input list is a
pure value, matching the `input_df.copy()` at the top of the source: the
argument is never mutated.  Note that the function body contains no
dropna, no replace of infinities, and no row filter of any kind. -/
def clean_data (input_df : List RawRow) : Except String (List CleanRow) :=
  clean_rows input_df

/-- True when some row of a cleaned dataframe still carries a non-finite
close value or a NaN Date. -/
def has_non_finite (rows : List CleanRow) : Bool :=
  rows.any (fun r =>
    r.close_values.any (fun c => !c.isFinite) || r.date_str.isNone)

/-- Column that holds the 260 prior close values, from the notebook's
STOCK_HISTORY_COLUMN constant. -/
def STOCK_HISTORY_COLUMN : String := "close_values_prior_260"

/-- The notebook's COL_NAMES constant: day_0 through day_259. -/
def COL_NAMES : List String :=
  (List.range 260).map (fun day => "day_" ++ toString day)

/-- The notebook's LABEL constant. -/
def LABEL : String := "direction_numeric"

/-- Cell subtraction.  Floating point special values are modelled
coarsely: any operation that touches a non-finite operand yields nan.  No
theorem in this file depends on the numeric outcome of a cell operation. -/
def Cell.sub : Cell → Cell → Cell
  | .q a, .q b => .q (a - b)
  | _, _ => .nan

/-- Cell division, with the same coarse non-finite model; division by an
exact zero is mapped to nan. -/
def Cell.div : Cell → Cell → Cell
  | .q a, .q b => if b = 0 then .nan else .q (a / b)
  | _, _ => .nan

/-- The finite values of a column; pandas mean and std skip NaN cells. -/
def finite_vals (c : List Cell) : List ℚ :=
  c.filterMap (fun v =>
    match v with
    | Cell.q a => some a
    | _ => none)

/-- Column mean, as computed by df.mean() inside `_scale_features`. -/
def col_mean (c : List Cell) : Cell :=
  match finite_vals c with
  | [] => Cell.nan
  | vs => Cell.q (vs.sum / (vs.length : ℚ))

/-- Rational square root approximation, standing in for the floating
point square root inside pandas std; theorems below never inspect the
value it returns. -/
def sqrtQ (x : ℚ) : ℚ :=
  (Nat.sqrt (x.num.toNat * x.den) : ℚ) / (x.den : ℚ)

/-- Column sample standard deviation, as computed by df.std() inside
`_scale_features` (ddof = 1, NaN when fewer than two finite values). -/
def col_std (c : List Cell) : Cell :=
  match finite_vals c with
  | [] => Cell.nan
  | [_] => Cell.nan
  | vs =>
    Cell.q (sqrtQ (((vs.map (fun a => (a - vs.sum / (vs.length : ℚ)) ^ 2)).sum)
      / ((vs.length : ℚ) - 1)))

/-- Columnwise body of `_scale_features`: (df - avg) / std. -/
def scale_col (c : List Cell) : List Cell :=
  c.map (fun v => (v.sub (col_mean c)).div (col_std c))

/-- The notebook's `_scale_features`, acting on a dataframe given as a
list of named columns; column names are preserved. -/
def scale_features (df : List (String × List Cell)) : List (String × List Cell) :=
  df.map (fun nc => (nc.1, scale_col nc.2))

/-- Width of the dataframe produced by applying pd.Series to the
close_values_prior_260 column: the longest list among the rows. -/
def max_len (rows : List CleanRow) : Nat :=
  rows.foldr (fun r m => max r.close_values.length m) 0

/-- The expansion step of `create_features`:
df[STOCK_HISTORY_COLUMN].apply(pd.Series) turns the column of lists into
max_len columns, padding shorter rows with NaN. -/
def expand_series (rows : List CleanRow) : List (List Cell) :=
  (List.range (max_len rows)).map (fun j =>
    rows.map (fun r => (r.close_values.get? j).getD Cell.nan))

/-- The notebook's `create_features`: expand the close-value lists into
one column per day, rename those columns to COL_NAMES (pandas raises
ValueError when the widths disagree, hence the guard), z-scale them with
`_scale_features`, and concatenate the globally fixed LABEL column of the
input dataframe.  The `label_name` argument is received but never read,
exactly as in the source. -/
def create_features (df : List CleanRow) (label_name : String) :
    Except String (List (String × List Cell)) :=
  if (expand_series df).length == COL_NAMES.length then
    Except.ok
      (scale_features (COL_NAMES.zip (expand_series df))
        ++ [(LABEL, df.map (fun r => Cell.q (r.direction_numeric : ℚ)))])
  else Except.error "ValueError"

/-- A single-quote character, used when assembling the SQL WHERE clause. -/
def squote : String := String.singleton (Char.ofNat 39)

/-- The floor and ceiling date assigned by the body of `_create_split`:
initialised to the TRAIN range and overwritten for VALID and for TEST, so
every other phase string falls back to the TRAIN range. -/
def split_bounds (phase : String) : String × String :=
  if phase = "VALID" then ("2010-07-01", "2011-09-01")
  else if phase = "TEST" then ("2011-09-01", "2012-11-30")
  else ("2002-11-01", "2010-07-01")

/-- The WHERE template of `_create_split`, with floor and ceiling
substituted the way str.format does. -/
def where_clause (floor ceiling : String) : String :=
  "\n    WHERE Date >= " ++ squote ++ floor ++ squote
    ++ "\n    AND Date < " ++ squote ++ ceiling ++ squote ++ "\n    "

/-- The notebook's `_create_split`. -/
def create_split (phase : String) : String :=
  where_clause (split_bounds phase).1 (split_bounds phase).2

/-- The basequery string inside `create_query`. -/
def basequery : String :=
  "\n    #standardSQL\n    SELECT\n      symbol,\n      Date,\n      direction,\n      close_values_prior_260\n    FROM\n      `stock_market.eps_percent_change_sp500`\n    "

/-- The notebook's `create_query`: the base query concatenated with the
phase's WHERE clause. -/
def create_query (phase : String) : String :=
  basequery ++ create_split phase

/-- The inline bq_query string sent to BigQuery while exploring the data. -/
def bq_query : String :=
  "\n#standardSQL\nSELECT\n  symbol,\n  Date,\n  direction,\n  close_values_prior_260\nFROM\n  `stock_market.eps_percent_change_sp500`\nLIMIT\n  100\n"

/-- Substring occurrence check over character lists. -/
def hasSub (pat : List Char) : List Char → Bool
  | [] => pat.isEmpty
  | c :: t => pat.isPrefixOf (c :: t) || hasSub pat t

/-- Substring occurrence check over strings. -/
def strContains (s pat : String) : Bool :=
  hasSub pat.toList s.toList

/-- Number of (possibly overlapping) occurrences of a pattern. -/
def countOcc (pat : List Char) : List Char → Nat
  | [] => 0
  | c :: t => (if pat.isPrefixOf (c :: t) then 1 else 0) + countOcc pat t

/-- Number of occurrences of a pattern in a string. -/
def countSub (s pat : String) : Nat :=
  countOcc pat.toList s.toList

/-- A query string is a read-only standardSQL SELECT over the stock
table: exactly one SELECT keyword, the standardSQL marker, the one table,
and none of the BigQuery data-modification or DDL keywords. -/
def is_read_only_select (s : String) : Bool :=
  countSub s "SELECT" == 1
    && strContains s "#standardSQL"
    && strContains s "`stock_market.eps_percent_change_sp500`"
    && !(strContains s "INSERT")
    && !(strContains s "UPDATE")
    && !(strContains s "DELETE")
    && !(strContains s "MERGE")
    && !(strContains s "CREATE")
    && !(strContains s "DROP")
    && !(strContains s "ALTER")
    && !(strContains s "TRUNCATE")

/-- External effects performed by the stock notebook's train/valid/test
export loop: a BigQuery query, a CSV file written to local disk, and a
progress line printed to stdout. -/
inductive NBEvent where
  | bq_query_call (query : String)
  | csv_write (path : String)
  | print_line
deriving DecidableEq, Repr

/-- ASCII lowercase of one character, modelling str.lower on the
uppercase phase names. -/
def ascii_lower_char (c : Char) : Char :=
  if c.isUpper then Char.ofNat (c.toNat + 32) else c

/-- ASCII lowercase of a string, modelling the phase.lower() call of the
export loop. -/
def ascii_lower (s : String) : String :=
  String.mk (s.data.map ascii_lower_char)

/-- The phases iterated over by the export loop. -/
def export_phases : List String := ["TRAIN", "VALID", "TEST"]

/-- The effect trace of the export loop: for each phase it queries
BigQuery with create_query(phase), cleans and featurises the dataframe in
memory, writes it to ../data/stock-{phase.lower()}.csv, and prints a
summary line. -/
def export_loop_events : List NBEvent :=
  export_phases.foldr
    (fun phase rest =>
      NBEvent.bq_query_call (create_query phase)
        :: NBEvent.csv_write ("../data/stock-" ++ ascii_lower phase ++ ".csv")
        :: NBEvent.print_line
        :: rest)
    []

/-- The CSV paths the export loop writes, in order. -/
def export_csv_paths : List String :=
  export_loop_events.filterMap (fun e =>
    match e with
    | NBEvent.csv_write p => some p
    | _ => none)

/-- One step of the cloudbuild_vertex.yaml template written by the CI/CD
lab notebook.  `purpose` is the comment heading the step in the YAML;
`name` is the builder image, none where the lab leaves a TODO
placeholder. -/
structure BuildStep where
  purpose : String
  name : Option String
  args : List String
  env : List String
  dir : Option String
deriving DecidableEq, Repr

/-- The images field of the template; the lab version leaves it as a TODO
for the learner to fill in. -/
inductive ImagesField where
  | todo
  | names (l : List String)
deriving DecidableEq, Repr

/-- The top-level fields of the cloudbuild_vertex.yaml template: the
steps list, the images list, and the timeout, each with the comment
attached to it in the file. -/
structure CloudBuildConfig where
  steps : List BuildStep
  images : ImagesField
  images_purpose : String
  timeout : String
  timeout_reason : String
deriving DecidableEq, Repr

/-- The custom Cloud Build builder image that encapsulates the KFP CLI. -/
def kfp_builder : String := "gcr.io/$PROJECT_ID/kfp-cli-vertex"

/-- First step of the template: build the trainer image; its builder
name, args and dir are TODO placeholders in the lab version. -/
def build_trainer_step : BuildStep :=
  { purpose := "Build the trainer image"
    name := none
    args := []
    env := []
    dir := none }

/-- Second step of the template: compile the pipeline with dsl-compile-v2
inside the custom KFP CLI builder, with the pipeline settings passed as
environment variables. -/
def compile_pipeline_step : BuildStep :=
  { purpose := "Compile the pipeline"
    name := some kfp_builder
    args := ["-c", "dsl-compile-v2 # TODO\n"]
    env :=
      [ "PIPELINE_ROOT=gs://$PROJECT_ID-vertex/pipeline"
      , "PROJECT_ID=$PROJECT_ID"
      , "REGION=$_REGION"
      , "SERVING_CONTAINER_IMAGE_URI=us-docker.pkg.dev/vertex-ai/prediction/sklearn-cpu.0-20:latest"
      , "TRAINING_CONTAINER_IMAGE_URI=gcr.io/$PROJECT_ID/trainer_image_covertype_vertex:latest"
      , "TRAINING_FILE_PATH=gs://$PROJECT_ID-vertex/data/training/dataset.csv"
      , "VALIDATION_FILE_PATH=gs://$PROJECT_ID-vertex/data/validation/dataset.csv" ]
    dir := some "pipeline_vertex" }

/-- Third step of the template: run the pipeline through run_pipeline.py
inside the same custom builder. -/
def run_pipeline_step : BuildStep :=
  { purpose := "Run the pipeline"
    name := some kfp_builder
    args := ["-c", "python kfp-cli_vertex/run_pipeline.py  # TODO\n"]
    env := []
    dir := none }

/-- The cloudbuild_vertex.yaml template as written by the notebook's
writefile cell. -/
def cloudbuild_vertex : CloudBuildConfig :=
  { steps := [build_trainer_step, compile_pipeline_step, run_pipeline_step]
    images := ImagesField.todo
    images_purpose := "Push the images to Container Registry"
    timeout := "10800s"
    timeout_reason := "This is required since the pipeline run overflows the default timeout" }

/-- The REGION setting of the CI/CD notebook. -/
def REGION : String := "us-central1"

/-- The SUBSTITUTIONS string built before submitting the build. -/
def SUBSTITUTIONS : String := "_REGION=" ++ REGION

/-- The manual submit command of the CI/CD notebook. -/
def gcloud_submit_command : String :=
  "gcloud builds submit . --config cloudbuild_vertex.yaml --substitutions "
    ++ SUBSTITUTIONS

/-- Framework effects performed by the DCGAN notebook's training code. -/
inductive GanEvent where
  | sample_noise
  | generator_forward
  | discriminator_forward (real : Bool)
  | generator_update
  | discriminator_update
  | clear_output
  | image_save
  | checkpoint_save
  | time_print
deriving DecidableEq, Repr

/-- The effect trace of one call of `train_step`: draw one noise batch,
run the generator on it (the fill-in expression of the exercise), run the
discriminator on the real batch and on the generated batch, then apply
exactly one optimizer step to the generator variables and exactly one to
the discriminator variables. -/
def train_step_events : List GanEvent :=
  [ GanEvent.sample_noise
  , GanEvent.generator_forward
  , GanEvent.discriminator_forward true
  , GanEvent.discriminator_forward false
  , GanEvent.generator_update
  , GanEvent.discriminator_update ]

/-- The inner loop of `train`: one `train_step` per batch of the dataset. -/
def repeat_batches : Nat → List GanEvent
  | 0 => []
  | n + 1 => train_step_events ++ repeat_batches n

/-- What `train` does after the batch loop of one epoch: clear the
output, generate and save the progress images, save a checkpoint on every
15th epoch, and print the elapsed time. -/
def epoch_tail (epoch : Nat) : List GanEvent :=
  [GanEvent.clear_output, GanEvent.image_save]
    ++ (if (epoch + 1) % 15 == 0 then [GanEvent.checkpoint_save] else [])
    ++ [GanEvent.time_print]

/-- The first `e` epochs of `train`, in order. -/
def epochs_events (num_batches : Nat) : Nat → List GanEvent
  | 0 => []
  | e + 1 => epochs_events num_batches e ++ (repeat_batches num_batches ++ epoch_tail e)

/-- The full effect trace of `train(dataset, epochs)` for a dataset of
`num_batches` batches: the per-epoch loop, then a final clear and image
generation after the last epoch. -/
def train_events (num_batches epochs : Nat) : List GanEvent :=
  epochs_events num_batches epochs ++ [GanEvent.clear_output, GanEvent.image_save]

/-- Membership of a date, by its numeric code, in the half-open date
range that `_create_split` emits for a phase. -/
def in_split (phase : String) (d : Nat) : Prop :=
  date_code (split_bounds phase).1 ≤ d ∧ d < date_code (split_bounds phase).2

/-- A one-row raw dataframe whose close-value list carries a NaN; the
cleaning documentation promises such values are removed. -/
def c1_input : List RawRow :=
  [{ symbol := "AAA", date := "2010-01-04", direction := "UP",
     close_values := [Cell.nan, Cell.q 1] }]

/-- What `clean_data` actually returns on `c1_input`: Date reformatted,
direction_numeric appended, and the NaN close value still present. -/
def c1_cleaned : List CleanRow :=
  [{ symbol := "AAA", date_str := some "2010-01-04", direction := "UP",
     close_values := [Cell.nan, Cell.q 1], direction_numeric := 2 }]

/-- A one-row cleaned dataframe with the full 260 close values, matching
the documented schema of the eps_percent_change_sp500 table. -/
def c9_df : List CleanRow :=
  [{ symbol := "AAA", date_str := some "2010-01-04", direction := "UP",
     close_values := List.replicate 260 (Cell.q 1), direction_numeric := 2 }]

/-- The direction dictionary misses a key exactly when the key is none of
DOWN, STAY, UP. -/
theorem dir_map_eq_none (x : String) :
    dir_map x = none ↔ x ≠ "DOWN" ∧ x ≠ "STAY" ∧ x ≠ "UP" := by
  unfold dir_map
  by_cases h1 : x = "DOWN" <;> by_cases h2 : x = "STAY" <;>
    by_cases h3 : x = "UP" <;> simp [h1, h2, h3]

/-- `clean_rows` raises KeyError exactly when a direction value falls
outside the dictionary. -/
theorem clean_rows_error_iff (rs : List RawRow) :
    clean_rows rs = Except.error "KeyError" ↔
      ∃ r ∈ rs, dir_map r.direction = none := by
  induction rs with
  | nil => simp [clean_rows]
  | cons r rs ih =>
    simp only [clean_rows]
    cases hd : dir_map r.direction with
    | none =>
      exact iff_of_true rfl ⟨r, List.mem_cons_self r rs, hd⟩
    | some n =>
      cases hc : clean_rows rs with
      | error e =>
        constructor
        · intro h
          have he : e = "KeyError" := by
            simpa using h
          subst he
          obtain ⟨r2, hr2, hd2⟩ := ih.mp hc
          exact ⟨r2, List.mem_cons_of_mem r hr2, hd2⟩
        · rintro ⟨r2, hr2, hd2⟩
          rcases List.mem_cons.mp hr2 with h | h
          · subst h
            rw [hd] at hd2
            cases hd2
          · have h2 := ih.mpr ⟨r2, h, hd2⟩
            rw [hc] at h2
            exact h2 ▸ rfl
      | ok rest =>
        constructor
        · intro h
          cases h
        · rintro ⟨r2, hr2, hd2⟩
          rcases List.mem_cons.mp hr2 with h | h
          · subst h
            rw [hd] at hd2
            cases hd2
          · have h2 := ih.mpr ⟨r2, h, hd2⟩
            rw [hc] at h2
            cases h2

/-- On a nonempty dataframe whose rows all carry 260 close values, the
pd.Series expansion is exactly 260 columns wide. -/
theorem max_len_eq :
    ∀ df : List CleanRow, df ≠ [] →
      (∀ r ∈ df, r.close_values.length = 260) → max_len df = 260
  | [], hne, _ => absurd rfl hne
  | r :: rs, _, hall => by
    have hr : r.close_values.length = 260 := hall r (List.mem_cons_self r rs)
    cases rs with
    | nil =>
      show max r.close_values.length (max_len []) = 260
      rw [hr]
      rfl
    | cons r2 rs2 =>
      have hrest : max_len (r2 :: rs2) = 260 :=
        max_len_eq (r2 :: rs2) (by simp)
          (fun r3 hm => hall r3 (List.mem_cons_of_mem r hm))
      show max r.close_values.length (max_len (r2 :: rs2)) = 260
      rw [hr, hrest]
      omega

/-- `_scale_features` preserves the column names. -/
theorem map_fst_scale_features (df : List (String × List Cell)) :
    (scale_features df).map Prod.fst = df.map Prod.fst := by
  unfold scale_features
  rw [List.map_map]
  rfl

/-- Event count of the batch loop: num_batches copies of the train_step
trace. -/
theorem count_repeat_batches (a : GanEvent) (nb : Nat) :
    (repeat_batches nb).count a = nb * train_step_events.count a := by
  induction nb with
  | zero => simp [repeat_batches]
  | succ n ih =>
    rw [repeat_batches, List.count_append, ih]
    ring

/-- The after-batches part of an epoch saves a checkpoint exactly on
every 15th epoch. -/
theorem count_epoch_tail_checkpoint (e : Nat) :
    (epoch_tail e).count GanEvent.checkpoint_save
      = if (e + 1) % 15 == 0 then 1 else 0 := by
  unfold epoch_tail
  cases h : ((e + 1) % 15 == 0) <;> simp [h]

/-- The after-batches part of an epoch saves exactly one image grid. -/
theorem count_epoch_tail_image (e : Nat) :
    (epoch_tail e).count GanEvent.image_save = 1 := by
  unfold epoch_tail
  cases h : ((e + 1) % 15 == 0) <;> simp [h]

/-- The after-batches part of an epoch samples no noise. -/
theorem count_epoch_tail_noise (e : Nat) :
    (epoch_tail e).count GanEvent.sample_noise = 0 := by
  unfold epoch_tail
  cases h : ((e + 1) % 15 == 0) <;> simp [h]

/-- Checkpoint saves over the first e epochs: one per epoch whose
1-based index is a multiple of 15. -/
theorem count_epochs_checkpoint (nb e : Nat) :
    (epochs_events nb e).count GanEvent.checkpoint_save
      = (List.range e).countP (fun k => (k + 1) % 15 == 0) := by
  induction e with
  | zero => simp [epochs_events]
  | succ n ih =>
    rw [epochs_events, List.count_append, List.count_append, ih,
      count_repeat_batches, count_epoch_tail_checkpoint, List.range_succ,
      List.countP_append]
    have hz : train_step_events.count GanEvent.checkpoint_save = 0 := by decide
    rw [hz]
    simp [List.countP_cons]

/-- Image saves over the first e epochs: exactly one per epoch. -/
theorem count_epochs_image (nb e : Nat) :
    (epochs_events nb e).count GanEvent.image_save = e := by
  induction e with
  | zero => simp [epochs_events]
  | succ n ih =>
    rw [epochs_events, List.count_append, List.count_append, ih,
      count_repeat_batches, count_epoch_tail_image]
    have hz : train_step_events.count GanEvent.image_save = 0 := by decide
    rw [hz]
    ring

/-- Noise draws over the first e epochs: one per train_step call, so
num_batches per epoch. -/
theorem count_epochs_noise (nb e : Nat) :
    (epochs_events nb e).count GanEvent.sample_noise = e * nb := by
  induction e with
  | zero => simp [epochs_events]
  | succ n ih =>
    rw [epochs_events, List.count_append, List.count_append, ih,
      count_repeat_batches, count_epoch_tail_noise]
    have ho : train_step_events.count GanEvent.sample_noise = 1 := by decide
    rw [ho]
    ring

/-- C1: the claim says `clean_data` satisfies its documented three-step
contract, whose first step removes every inf or NA value.  Evaluating the
code on a one-row dataframe whose close-value list carries a NaN shows
the function returns the row with the NaN untouched (while it does
reformat Date and append direction_numeric): the removal step promised by
the documentation cell is absent from the code. -/
theorem C1_clean_data_keeps_non_finite :
    clean_data c1_input = Except.ok c1_cleaned ∧
    has_non_finite c1_cleaned = true := by
  constructor
  · decide
  · decide

/-- C2 counterexample: the claim says no operation defined in the
repository writes dataframes, datasets or model state to durable storage,
yet the stock notebook's export loop writes a CSV file and the DCGAN
train function (run for its configured 50 epochs on any one-batch
dataset) saves a model checkpoint. -/
theorem C2_counterexample_durable_writes :
    NBEvent.csv_write "../data/stock-train.csv" ∈ export_loop_events ∧
    GanEvent.checkpoint_save ∈ train_events 1 50 := by
  constructor
  · decide
  · decide

/-- C2 amended: the notebooks consume most data transiently, but they do
persist artifacts: the export loop writes the train, valid and test
dataframes to local CSV files, and the DCGAN train loop saves a
checkpoint on every 15th of its 50 epochs (three in total) and one image
grid per epoch plus a final one. -/
theorem C2_amended_durable_writes_enumerated :
    export_csv_paths =
      ["../data/stock-train.csv", "../data/stock-valid.csv",
        "../data/stock-test.csv"] ∧
    (∀ nb : Nat,
      (train_events nb 50).count GanEvent.checkpoint_save = 3) ∧
    (∀ nb epochs : Nat,
      (train_events nb epochs).count GanEvent.image_save = epochs + 1) := by
  refine ⟨by decide, ?_, ?_⟩
  · intro nb
    rw [train_events, List.count_append, count_epochs_checkpoint]
    decide
  · intro nb epochs
    rw [train_events, List.count_append, count_epochs_image]
    have h1 :
        ([GanEvent.clear_output, GanEvent.image_save]).count GanEvent.image_save
          = 1 := by decide
    rw [h1]

set_option maxRecDepth 8000 in
/-- C3: every query the stock notebook issues is a read-only inline
standardSQL SELECT over the eps_percent_change_sp500 table:
create_query(phase) is the fixed base query concatenated with the phase's
WHERE date-range clause and contains a single SELECT and no
data-modification or DDL keyword, and the inline bq_query string is
likewise a single SELECT. -/
theorem C3_queries_read_only :
    (∀ phase : String,
      create_query phase = basequery ++ create_split phase ∧
      is_read_only_select (create_query phase) = true) ∧
    is_read_only_select bq_query = true := by
  refine ⟨fun phase => ⟨rfl, ?_⟩, by decide⟩
  by_cases h1 : phase = "VALID"
  · subst h1
    decide
  · by_cases h2 : phase = "TEST"
    · subst h2
      decide
    · have hb : split_bounds phase = ("2002-11-01", "2010-07-01") := by
        unfold split_bounds
        rw [if_neg h1, if_neg h2]
      unfold create_query create_split
      rw [hb]
      decide

/-- C4: `clean_data` fails with a plain KeyError exactly when the
direction column contains a value other than DOWN, STAY or UP; no other
input makes it raise, and the error is the framework's own KeyError
rather than any custom exception type. -/
theorem C4_clean_data_keyerror_iff (df : List RawRow) :
    clean_data df = Except.error "KeyError" ↔
      ∃ r ∈ df,
        r.direction ≠ "DOWN" ∧ r.direction ≠ "STAY" ∧ r.direction ≠ "UP" := by
  unfold clean_data
  rw [clean_rows_error_iff]
  simp only [dir_map_eq_none]

/-- C5: `_create_split` is total over arbitrary phase strings with TRAIN
as the default: VALID gets the 2010-07-01 to 2011-09-01 range, TEST the
2011-09-01 to 2012-11-30 range, and every other string the TRAIN range
2002-11-01 to 2010-07-01; the emitted clause is the WHERE template over
those bounds, and the three date ranges are pairwise disjoint and
contiguous. -/
theorem C5_create_split_total_disjoint_contiguous :
    split_bounds "VALID" = ("2010-07-01", "2011-09-01") ∧
    split_bounds "TEST" = ("2011-09-01", "2012-11-30") ∧
    (∀ phase : String, phase ≠ "VALID" → phase ≠ "TEST" →
      split_bounds phase = ("2002-11-01", "2010-07-01")) ∧
    (∀ phase : String,
      create_split phase =
        where_clause (split_bounds phase).1 (split_bounds phase).2) ∧
    (∀ d : Nat, ¬ (in_split "TRAIN" d ∧ in_split "VALID" d)) ∧
    (∀ d : Nat, ¬ (in_split "VALID" d ∧ in_split "TEST" d)) ∧
    (∀ d : Nat, ¬ (in_split "TRAIN" d ∧ in_split "TEST" d)) ∧
    (split_bounds "TRAIN").2 = (split_bounds "VALID").1 ∧
    (split_bounds "VALID").2 = (split_bounds "TEST").1 := by
  have ht1 : date_code (split_bounds "TRAIN").1 = 20021101 := by decide
  have ht2 : date_code (split_bounds "TRAIN").2 = 20100701 := by decide
  have hv1 : date_code (split_bounds "VALID").1 = 20100701 := by decide
  have hv2 : date_code (split_bounds "VALID").2 = 20110901 := by decide
  have hs1 : date_code (split_bounds "TEST").1 = 20110901 := by decide
  have hs2 : date_code (split_bounds "TEST").2 = 20121130 := by decide
  refine ⟨by decide, by decide, ?_, fun phase => rfl, ?_, ?_, ?_, by decide,
    by decide⟩
  · intro phase h1 h2
    unfold split_bounds
    rw [if_neg h1, if_neg h2]
  · intro d hd
    obtain ⟨⟨ha, hb⟩, hc, he⟩ := hd
    rw [ht2] at hb
    rw [hv1] at hc
    omega
  · intro d hd
    obtain ⟨⟨ha, hb⟩, hc, he⟩ := hd
    rw [hv2] at hb
    rw [hs1] at hc
    omega
  · intro d hd
    obtain ⟨⟨ha, hb⟩, hc, he⟩ := hd
    rw [ht2] at hb
    rw [hs1] at hc
    omega

/-- Witness for C5: the unrecognized phase string X falls back to the
TRAIN bounds. -/
theorem C5_witness : split_bounds "X" = ("2002-11-01", "2010-07-01") :=
  C5_create_split_total_disjoint_contiguous.2.2.1 "X" (by decide) (by decide)

/-- C6: the cloudbuild_vertex.yaml template runs, in sequence, the
trainer-image build step, the pipeline compilation step (dsl-compile-v2
inside the custom gcr.io/$PROJECT_ID/kfp-cli-vertex builder), and the
pipeline run step (run_pipeline.py inside the same builder), with the
images section that pushes the listed images to the Container Registry
following the steps. -/
theorem C6_cicd_steps_in_order :
    cloudbuild_vertex.steps =
      [build_trainer_step, compile_pipeline_step, run_pipeline_step] ∧
    cloudbuild_vertex.steps.map BuildStep.purpose =
      ["Build the trainer image", "Compile the pipeline", "Run the pipeline"] ∧
    compile_pipeline_step.name = some "gcr.io/$PROJECT_ID/kfp-cli-vertex" ∧
    run_pipeline_step.name = compile_pipeline_step.name ∧
    strContains (String.join compile_pipeline_step.args) "dsl-compile-v2"
      = true ∧
    strContains (String.join run_pipeline_step.args)
      "python kfp-cli_vertex/run_pipeline.py" = true ∧
    cloudbuild_vertex.images_purpose = "Push the images to Container Registry"
    := by
  refine ⟨rfl, by decide, by decide, by decide, by decide, by decide,
    by decide⟩

/-- C7: the template uses exactly the schema fields the spec names: a
three-entry steps list, environment abstraction through the substitution
variables $PROJECT_ID and $_REGION (the latter supplied at submit time
through the SUBSTITUTIONS string), an images list (left TODO in the lab
version), and a 10800s timeout justified by the run overflowing the
default. -/
theorem C7_cloudbuild_schema_fields :
    cloudbuild_vertex.timeout = "10800s" ∧
    cloudbuild_vertex.timeout_reason =
      "This is required since the pipeline run overflows the default timeout" ∧
    cloudbuild_vertex.steps.length = 3 ∧
    cloudbuild_vertex.images = ImagesField.todo ∧
    "REGION=$_REGION" ∈ compile_pipeline_step.env ∧
    strContains kfp_builder "$PROJECT_ID" = true ∧
    SUBSTITUTIONS = "_REGION=us-central1" ∧
    gcloud_submit_command =
      "gcloud builds submit . --config cloudbuild_vertex.yaml --substitutions _REGION=us-central1"
    := by
  refine ⟨rfl, rfl, by decide, rfl, by decide, by decide, rfl, rfl⟩

/-- C8: one `train_step` call draws exactly one noise batch, applies the
discriminator to the real batch and to the generated batch, and performs
exactly one gradient update on the generator variables and one on the
discriminator variables; `train` invokes `train_step` once per batch per
epoch, so its trace carries epochs * num_batches noise draws. -/
theorem C8_gan_train_step_pair :
    train_step_events.count GanEvent.sample_noise = 1 ∧
    GanEvent.discriminator_forward true ∈ train_step_events ∧
    GanEvent.discriminator_forward false ∈ train_step_events ∧
    train_step_events.count GanEvent.generator_update = 1 ∧
    train_step_events.count GanEvent.discriminator_update = 1 ∧
    (∀ nb epochs : Nat,
      (train_events nb epochs).count GanEvent.sample_noise = epochs * nb) := by
  refine ⟨by decide, by decide, by decide, by decide, by decide, ?_⟩
  intro nb epochs
  rw [train_events, List.count_append, count_epochs_noise]
  have h1 :
      ([GanEvent.clear_output, GanEvent.image_save]).count GanEvent.sample_noise
        = 0 := by decide
  rw [h1]
  omega

/-- C9: `create_features` never reads its label_name argument, so its
result is the same for any two label names; COL_NAMES has exactly 260
entries; and on every nonempty dataframe whose rows carry the schema's
260 close values the result is the day_0 through day_259 z-scaled columns
followed by the fixed direction_numeric label column. -/
theorem C9_create_features_label_independent :
    (∀ (df : List CleanRow) (l1 l2 : String),
      create_features df l1 = create_features df l2) ∧
    COL_NAMES.length = 260 ∧
    (∀ (df : List CleanRow) (l : String), df ≠ [] →
      (∀ r ∈ df, r.close_values.length = 260) →
      (create_features df l).toOption.map (List.map Prod.fst) =
        some (COL_NAMES ++ [LABEL])) := by
  have hcol : COL_NAMES.length = 260 := by
    unfold COL_NAMES
    rw [List.length_map, List.length_range]
  refine ⟨fun df l1 l2 => rfl, hcol, ?_⟩
  intro df l hne hall
  have hmax : max_len df = 260 := max_len_eq df hne hall
  have hlen : (expand_series df).length = 260 := by
    unfold expand_series
    rw [List.length_map, List.length_range, hmax]
  unfold create_features
  rw [hlen, hcol]
  simp only [beq_self_eq_true, if_true]
  rw [Except.toOption, Option.map]
  rw [List.map_append, map_fst_scale_features,
    List.map_fst_zip COL_NAMES (expand_series df) (by rw [hlen, hcol])]
  rfl

/-- Witness for C9: on the concrete one-row dataframe with 260 close
values, the feature dataframe's columns are day_0 through day_259
followed by direction_numeric. -/
theorem C9_witness :
    (create_features c9_df LABEL).toOption.map (List.map Prod.fst) =
      some (COL_NAMES ++ [LABEL]) :=
  C9_create_features_label_independent.2.2 c9_df LABEL
    (by
      unfold c9_df
      exact List.cons_ne_nil _ _)
    (by
      intro r hr
      simp only [c9_df, List.mem_singleton] at hr
      subst hr
      exact List.length_replicate 260 (Cell.q 1))

/-- C10 counterexample: the claim says no function defined by the
notebooks is a deterministic pure function of its arguments, yet
`_create_split` and `create_query` are: each phase string maps to one
fixed clause, a directly testable contract. -/
theorem C10_counterexample_deterministic_contract :
    create_split "TRAIN" = where_clause "2002-11-01" "2010-07-01" ∧
    create_split "VALID" = where_clause "2010-07-01" "2011-09-01" ∧
    create_split "TEST" = where_clause "2011-09-01" "2012-11-30" ∧
    create_query "TRAIN" = basequery ++ where_clause "2002-11-01" "2010-07-01"
    := by
  refine ⟨by decide, by decide, by decide, by decide⟩

/-- C10 amended: the notebooks do define deterministic pure functions
with testable contracts: for every phase string, create_query(phase)
is exactly the base query concatenated with the WHERE template over the
phase's bounds, and those bounds range over just three fixed pairs. -/
theorem C10_amended_deterministic_functions :
    ∀ phase : String,
      create_query phase =
        basequery ++ where_clause (split_bounds phase).1 (split_bounds phase).2 ∧
      (split_bounds phase = ("2002-11-01", "2010-07-01") ∨
        split_bounds phase = ("2010-07-01", "2011-09-01") ∨
        split_bounds phase = ("2011-09-01", "2012-11-30")) := by
  intro phase
  refine ⟨rfl, ?_⟩
  unfold split_bounds
  by_cases h1 : phase = "VALID" <;> by_cases h2 : phase = "TEST" <;>
    simp [h1, h2]
